import Mathlib

/-!
Shallow embedding of the signal-and-order-state engine of the repository
(`src/autotrader.cc`).  The file concatenates two strategy variants of the
same engine: a Bollinger-band variant (LOT_SIZE = 10, functions
`OrderBookMessageHandler`, `OrderFilledMessageHandler`,
`OrderStatusMessageHandler`, `ErrorMessageHandler`,
`HedgeFilledMessageHandler`, `setMidpoint`, `bollingerBands`) and a
decaying-extremum variant (LOT_SIZE = 20, adding `setVolume`).  Both are
embedded below: the Bollinger variant as the event-step machine, and the
decaying-extremum `setVolume` as a separate pure function.

Modelling conventions:
- C++ `unsigned long` prices, volumes and ids are `Nat`; the signed
  `long mPosition` and `int volume` are `Int`.  The values reached by the
  claims are tiny, so 64-bit wrap-around is never exercised and is not
  modelled.
- C++ `float` values are modelled by the inductive `FVal`:
  either NaN, plus infinity, minus infinity, or a finite value carried as
  an exact rational.  Division by zero follows IEEE-754
  (`0/0 = NaN`, `x/0 = +inf` for `x > 0`), and every comparison involving
  NaN is false.  Float literals (`0.995`, `1.005`, ...) are modelled by
  their decimal values; finite arithmetic is exact rational arithmetic.
  No concrete value used by a theorem below sits close enough to a
  binary-rounding boundary for this idealisation to change a comparison:
  in particular `(float)199/(float)200` and the literal `0.995f` round to
  the same IEEE single, so their equality is faithfully reproduced by
  `199/200 = 995/1000` in the rationals.
- The C++ members `MA`, `SD`, `highBollingerBand`, `lowBollingerBand`
  always satisfy `high = MA + BAND_WIDTH*SD`, `low = MA - BAND_WIDTH*SD`
  with `BAND_WIDTH = 1` and `SD = sqrt variance`;  since `sqrt` of a
  rational is irrational, the state stores the pair `(bandMA, bandVar)`
  (mean and pre-square-root variance) and the two band comparisons
  `ratio < lowBollingerBand`, `ratio > highBollingerBand` are encoded
  exactly: for finite values and `v ≥ 0`,
  `q < m - sqrt v ↔ 0 < m - q ∧ v < (m - q)^2`.
- `std::unordered_set` membership sets are `Finset Nat`;
  `std::vector ratios` is a `List FVal`.
- Only index 0 of the five-level book arrays is read by the handlers, so
  events carry the top-of-book prices directly; the unread volume arrays
  and the logging statements are dropped.
-/

inductive Instrument
  | future
  | etf
  deriving DecidableEq, Repr

inductive Side
  | buy
  | sell
  deriving DecidableEq, Repr

inductive Lifespan
  | goodForDay
  deriving DecidableEq, Repr

/-- Outbound commands sent to the execution bus (`SendInsertOrder`,
`SendCancelOrder`, `SendHedgeOrder`).  The insert volume is the C++
`int volume` local, hence `Int`. -/
inductive Command
  | insert (id : Nat) (side : Side) (price : Nat) (volume : Int) (lifespan : Lifespan)
  | cancel (id : Nat)
  | hedge (id : Nat) (side : Side) (price : Nat) (volume : Nat)
  deriving DecidableEq, Repr

/-- IEEE-754 single-precision value, idealised: finite values are exact
rationals. -/
inductive FVal
  | nan
  | inf
  | ninf
  | fin (q : ℚ)
  deriving DecidableEq, Repr

/-- IEEE float addition on `FVal` (finite part exact). -/
def fadd : FVal → FVal → FVal
  | FVal.nan, _ => FVal.nan
  | _, FVal.nan => FVal.nan
  | FVal.inf, FVal.ninf => FVal.nan
  | FVal.ninf, FVal.inf => FVal.nan
  | FVal.inf, _ => FVal.inf
  | _, FVal.inf => FVal.inf
  | FVal.ninf, _ => FVal.ninf
  | _, FVal.ninf => FVal.ninf
  | FVal.fin a, FVal.fin b => FVal.fin (a + b)

/-- IEEE float negation on `FVal`. -/
def fneg : FVal → FVal
  | FVal.nan => FVal.nan
  | FVal.inf => FVal.ninf
  | FVal.ninf => FVal.inf
  | FVal.fin q => FVal.fin (-q)

/-- IEEE float subtraction on `FVal`. -/
def fsub (a b : FVal) : FVal := fadd a (fneg b)

/-- `pow(x, 2)` on `FVal`. -/
def fsq : FVal → FVal
  | FVal.nan => FVal.nan
  | FVal.inf => FVal.inf
  | FVal.ninf => FVal.inf
  | FVal.fin q => FVal.fin (q * q)

/-- Division of a float by a positive integer constant (`sum / WINDOW_SIZE`). -/
def fdivNat (x : FVal) (n : Nat) : FVal :=
  match x with
  | FVal.nan => FVal.nan
  | FVal.inf => FVal.inf
  | FVal.ninf => FVal.ninf
  | FVal.fin q => FVal.fin (q / n)

/-- Multiplication of a float by a positive rational constant
(`maxRatio * DECAY_RATE`). -/
def fmulC (x : FVal) (c : ℚ) : FVal :=
  match x with
  | FVal.nan => FVal.nan
  | FVal.inf => FVal.inf
  | FVal.ninf => FVal.ninf
  | FVal.fin q => FVal.fin (q * c)

/-- `sum += ratios[i]` left fold starting from `0.0f`. -/
def fsum (xs : List FVal) : FVal := xs.foldl fadd (FVal.fin 0)

/-- Float comparison `x <= c` against a finite constant; NaN compares false. -/
def FVal.le (x : FVal) (c : ℚ) : Bool :=
  match x with
  | FVal.nan => false
  | FVal.inf => false
  | FVal.ninf => true
  | FVal.fin q => decide (q ≤ c)

/-- Float comparison `x < c` against a finite constant. -/
def FVal.lt (x : FVal) (c : ℚ) : Bool :=
  match x with
  | FVal.nan => false
  | FVal.inf => false
  | FVal.ninf => true
  | FVal.fin q => decide (q < c)

/-- Float comparison `x >= c` against a finite constant. -/
def FVal.ge (x : FVal) (c : ℚ) : Bool :=
  match x with
  | FVal.nan => false
  | FVal.inf => true
  | FVal.ninf => false
  | FVal.fin q => decide (c ≤ q)

/-- Float comparison `x > c` against a finite constant. -/
def FVal.gt (x : FVal) (c : ℚ) : Bool :=
  match x with
  | FVal.nan => false
  | FVal.inf => true
  | FVal.ninf => false
  | FVal.fin q => decide (c < q)

/-- Float comparison `x < y` between two floats. -/
def fltF : FVal → FVal → Bool
  | FVal.nan, _ => false
  | _, FVal.nan => false
  | FVal.inf, _ => false
  | _, FVal.inf => true
  | FVal.ninf, FVal.ninf => false
  | FVal.ninf, FVal.fin _ => true
  | FVal.fin _, FVal.ninf => false
  | FVal.fin a, FVal.fin b => decide (a < b)

/-- Float comparison `x > y` between two floats. -/
def fgtF (x y : FVal) : Bool := fltF y x

/-- The C++ comparison `ratio < lowBollingerBand`, where the stored band is
`bandMA - sqrt bandVar` (see the header comment): square-root-free exact
encoding, NaN propagation and infinities per IEEE-754
(`sqrt` of NaN or of a negative value is NaN, `sqrt inf = inf`,
`inf - inf = NaN`). -/
def cmpLtLow (r ma va : FVal) : Bool :=
  match r, ma, va with
  | FVal.nan, _, _ => false
  | _, FVal.nan, _ => false
  | _, _, FVal.nan => false
  | FVal.inf, _, _ => false
  | _, _, FVal.ninf => false
  | FVal.ninf, FVal.inf, FVal.inf => false
  | FVal.ninf, FVal.inf, FVal.fin v => decide (0 ≤ v)
  | FVal.ninf, FVal.ninf, _ => false
  | FVal.ninf, FVal.fin _, FVal.inf => false
  | FVal.ninf, FVal.fin _, FVal.fin v => decide (0 ≤ v)
  | FVal.fin _, FVal.inf, FVal.inf => false
  | FVal.fin _, FVal.inf, FVal.fin v => decide (0 ≤ v)
  | FVal.fin _, FVal.ninf, _ => false
  | FVal.fin _, FVal.fin _, FVal.inf => false
  | FVal.fin q, FVal.fin m, FVal.fin v =>
      decide (0 ≤ v) && decide (0 < m - q) && decide (v < (m - q) * (m - q))

/-- The C++ comparison `ratio > highBollingerBand`, where the stored band is
`bandMA + sqrt bandVar`; same encoding as `cmpLtLow`. -/
def cmpGtHigh (r ma va : FVal) : Bool :=
  match r, ma, va with
  | FVal.nan, _, _ => false
  | _, FVal.nan, _ => false
  | _, _, FVal.nan => false
  | FVal.ninf, _, _ => false
  | _, _, FVal.ninf => false
  | FVal.inf, FVal.inf, _ => false
  | FVal.inf, FVal.ninf, FVal.inf => false
  | FVal.inf, FVal.ninf, FVal.fin v => decide (0 ≤ v)
  | FVal.inf, FVal.fin _, FVal.inf => false
  | FVal.inf, FVal.fin _, FVal.fin v => decide (0 ≤ v)
  | FVal.fin _, FVal.inf, _ => false
  | FVal.fin _, FVal.ninf, FVal.inf => false
  | FVal.fin _, FVal.ninf, FVal.fin v => decide (0 ≤ v)
  | FVal.fin _, FVal.fin _, FVal.inf => false
  | FVal.fin q, FVal.fin m, FVal.fin v =>
      decide (0 ≤ v) && decide (0 < q - m) && decide (v < (q - m) * (q - m))

/-! ### Constants of the Bollinger-band variant (first half of the file) -/

def LOT_SIZE : Int := 10
def POSITION_LIMIT : Int := 100
def TICK_SIZE_IN_CENTS : Nat := 100

/-- `BUY_RATIO = 0.995` in the source: maximum ratio to execute a buy order. -/
def buyThreshold : ℚ := 995 / 1000

/-- `SELL_RATIO = 1.005` in the source: minimum ratio to execute a sell order. -/
def sellThreshold : ℚ := 1005 / 1000

def WINDOW_SIZE : Nat := 20
def BOLLINGER_BONUS : Int := 3

/-- Modelled from the spec: the framework constants `MAXIMUM_ASK` and
`MINIMUM_BID` come from the Ready Trader Go headers, which are not under
`src/`; the spec describes them as the maximum/minimum tradable prices used
for aggressive hedge orders.  The values are the framework's
(`2^31 - 1` and `1`). -/
def MAXIMUM_ASK : Nat := 2147483647

/-- Modelled from the spec: see `MAXIMUM_ASK`. -/
def MINIMUM_BID : Nat := 1

/-- The mutable members of `AutoTrader` (Bollinger-band variant). -/
structure AutoTraderState where
  midpointFuture : Nat
  midpointETF : Nat
  mPosition : Int
  mBidId : Nat
  mAskId : Nat
  mBids : Finset Nat
  mAsks : Finset Nat
  mNextMessageId : Nat
  ratios : List FVal
  bandMA : FVal
  bandVar : FVal
  deriving DecidableEq

/-- Modelled from the spec: the member initialisers live in `autotrader.h`,
which is not under `src/`.  Per the spec, order id 0 is reserved for "no
order", ids are non-zero and monotonically assigned (so the id counter
starts at 1), position starts flat, midpoints are undefined (zero) until the
first valid snapshot, and the Bollinger statistics start empty/zero. -/
def initState : AutoTraderState :=
  { midpointFuture := 0
    midpointETF := 0
    mPosition := 0
    mBidId := 0
    mAskId := 0
    mBids := ∅
    mAsks := ∅
    mNextMessageId := 1
    ratios := []
    bandMA := FVal.fin 0
    bandVar := FVal.fin 0 }

/-- `AutoTrader::setMidpoint`.  Mirrors the source: no-op when either price
is zero, otherwise `mid = (ask + bid) / 2` (unsigned division) plus 50 when
`mid % 100 != 0`, stored for the matching instrument. -/
def setMidpoint (s : AutoTraderState) (instrument : Instrument)
    (bidPrice askPrice : Nat) : AutoTraderState :=
  if bidPrice = 0 ∨ askPrice = 0 then s
  else
    let s1 :=
      if instrument = Instrument.future then
        let m := (askPrice + bidPrice) / 2
        { s with midpointFuture := if m % 100 ≠ 0 then m + 50 else m }
      else s
    if instrument = Instrument.etf then
      let m := (askPrice + bidPrice) / 2
      { s1 with midpointETF := if m % 100 ≠ 0 then m + 50 else m }
    else s1

/-- `float ratio = (float)midpointETF / (float)midpointFuture;` with
IEEE-754 semantics for the zero denominator. -/
def ratioOf (midE midF : Nat) : FVal :=
  if midF = 0 then (if midE = 0 then FVal.nan else FVal.inf)
  else FVal.fin ((midE : ℚ) / (midF : ℚ))

/-- `AutoTrader::bollingerBands`: push the ratio; once the window would
exceed `WINDOW_SIZE`, drop the oldest sample and recompute the moving
average and the band statistics over the new window (`bandMA`/`bandVar`
encode `MA` and `SD^2`, see the header comment). -/
def bollingerBands (s : AutoTraderState) (r : FVal) : AutoTraderState :=
  if s.ratios.length < WINDOW_SIZE then { s with ratios := s.ratios ++ [r] }
  else
    let w := s.ratios.tail ++ [r]
    let ma := fdivNat (fsum w) WINDOW_SIZE
    let va := fdivNat (fsum (w.map (fun x => fsq (fsub x ma)))) WINDOW_SIZE
    { s with ratios := w, bandMA := ma, bandVar := va }

/-- First expiry check of `OrderBookMessageHandler`: cancel the resting ask
when `mAskId != 0 && ratio <= 1`, zeroing the slot immediately. -/
def cancelAskPhase (s : AutoTraderState) (r : FVal) :
    AutoTraderState × List Command :=
  if s.mAskId ≠ 0 ∧ FVal.le r 1 then
    ({ s with mAskId := 0 }, [Command.cancel s.mAskId])
  else (s, [])

/-- Second expiry check: cancel the resting bid when
`mBidId != 0 && ratio >= 1`, zeroing the slot immediately. -/
def cancelBidPhase (s : AutoTraderState) (r : FVal) :
    AutoTraderState × List Command :=
  if s.mBidId ≠ 0 ∧ FVal.ge r 1 then
    ({ s with mBidId := 0 }, [Command.cancel s.mBidId])
  else (s, [])

/-- Buy-opportunity branch of `OrderBookMessageHandler`:
`mBidId == 0 && ratio < BUY_RATIO && mPosition < POSITION_LIMIT`; volume is
`LOT_SIZE`, tripled below the low Bollinger band, clamped by
`POSITION_LIMIT - abs(mPosition)` when `mPosition + volume >= POSITION_LIMIT`;
the insert is priced at `askPrices[0]`. -/
def buyPhase (s : AutoTraderState) (r : FVal) (ask0 : Nat) :
    AutoTraderState × List Command :=
  if s.mBidId = 0 ∧ FVal.lt r buyThreshold ∧ s.mPosition < POSITION_LIMIT then
    let v0 : Int := if cmpLtLow r s.bandMA s.bandVar then LOT_SIZE * BOLLINGER_BONUS else LOT_SIZE
    let v : Int := if POSITION_LIMIT ≤ s.mPosition + v0 then POSITION_LIMIT - |s.mPosition| else v0
    ({ s with mBidId := s.mNextMessageId,
              mNextMessageId := s.mNextMessageId + 1,
              mBids := insert s.mNextMessageId s.mBids },
     [Command.insert s.mNextMessageId Side.buy ask0 v Lifespan.goodForDay])
  else (s, [])

/-- Sell-opportunity branch:
`mAskId == 0 && ratio > SELL_RATIO && mPosition > -POSITION_LIMIT`; volume is
`LOT_SIZE`, tripled above the high Bollinger band, clamped when
`mPosition - volume <= -POSITION_LIMIT`; the insert is priced at
`bidPrices[0]`. -/
def sellPhase (s : AutoTraderState) (r : FVal) (bid0 : Nat) :
    AutoTraderState × List Command :=
  if s.mAskId = 0 ∧ FVal.gt r sellThreshold ∧ -POSITION_LIMIT < s.mPosition then
    let v0 : Int := if cmpGtHigh r s.bandMA s.bandVar then LOT_SIZE * BOLLINGER_BONUS else LOT_SIZE
    let v : Int := if s.mPosition - v0 ≤ -POSITION_LIMIT then POSITION_LIMIT - |s.mPosition| else v0
    ({ s with mAskId := s.mNextMessageId,
              mNextMessageId := s.mNextMessageId + 1,
              mAsks := insert s.mNextMessageId s.mAsks },
     [Command.insert s.mNextMessageId Side.sell bid0 v Lifespan.goodForDay])
  else (s, [])

/-- `AutoTrader::OrderBookMessageHandler`: update the midpoint, then for ETF
snapshots compute the ratio once and run the two cancel checks, the
Bollinger update and the two insert checks in source order. -/
def orderBookStep (s0 : AutoTraderState) (instrument : Instrument)
    (ask0 bid0 : Nat) : AutoTraderState × List Command :=
  let s := setMidpoint s0 instrument bid0 ask0
  match instrument with
  | Instrument.future => (s, [])
  | Instrument.etf =>
      let r := ratioOf s.midpointETF s.midpointFuture
      let a := cancelAskPhase s r
      let b := cancelBidPhase a.1 r
      let s1 := bollingerBands b.1 r
      let c := buyPhase s1 r ask0
      let d := sellPhase c.1 r bid0
      (d.1, a.2 ++ b.2 ++ c.2 ++ d.2)

/-- `AutoTrader::OrderFilledMessageHandler`: an id in `mAsks` decreases the
position and hedges with an aggressive BUY at the floored-to-tick maximum
ask; an id in `mBids` increases the position and hedges with a SELL at the
minimum bid.  Slots and membership sets are untouched. -/
def orderFilledStep (s : AutoTraderState) (clientOrderId price volume : Nat) :
    AutoTraderState × List Command :=
  if clientOrderId ∈ s.mAsks then
    ({ s with mPosition := s.mPosition - (volume : Int),
              mNextMessageId := s.mNextMessageId + 1 },
     [Command.hedge s.mNextMessageId Side.buy
        (MAXIMUM_ASK / TICK_SIZE_IN_CENTS * TICK_SIZE_IN_CENTS) volume])
  else if clientOrderId ∈ s.mBids then
    ({ s with mPosition := s.mPosition + (volume : Int),
              mNextMessageId := s.mNextMessageId + 1 },
     [Command.hedge s.mNextMessageId Side.sell MINIMUM_BID volume])
  else (s, [])

/-- `AutoTrader::OrderStatusMessageHandler`: on `remainingVolume == 0`,
zero whichever slot holds the id (ask checked first) and erase the id from
both membership sets. -/
def orderStatusStep (s : AutoTraderState) (clientOrderId fillVolume remainingVolume : Nat)
    (fees : Int) : AutoTraderState × List Command :=
  if remainingVolume = 0 then
    let s1 :=
      if clientOrderId = s.mAskId then { s with mAskId := 0 }
      else if clientOrderId = s.mBidId then { s with mBidId := 0 }
      else s
    ({ s1 with mAsks := s1.mAsks.erase clientOrderId,
               mBids := s1.mBids.erase clientOrderId }, [])
  else (s, [])

/-- `AutoTrader::ErrorMessageHandler`: a non-zero id is forwarded to the
status handler as a zero-remaining update; id 0 only logs. -/
def errorStep (s : AutoTraderState) (clientOrderId : Nat) (message : String) :
    AutoTraderState × List Command :=
  if clientOrderId ≠ 0 then orderStatusStep s clientOrderId 0 0 0 else (s, [])

/-- `AutoTrader::HedgeFilledMessageHandler`: logging only. -/
def hedgeFilledStep (s : AutoTraderState) (clientOrderId price volume : Nat) :
    AutoTraderState × List Command :=
  (s, [])

/-- Inbound bus events (§6 of the spec).  Only the fields the handlers read
are carried; `seq` and the trade-tick payload are ignored by the code. -/
inductive Event
  | orderBook (instrument : Instrument) (seq ask0 bid0 : Nat)
  | tradeTicks (instrument : Instrument) (seq ask0 bid0 : Nat)
  | orderFilled (id price volume : Nat)
  | orderStatus (id fillVolume remainingVolume : Nat) (fees : Int)
  | hedgeFilled (id price volume : Nat)
  | errorMsg (id : Nat) (message : String)
  | disconnect
  deriving DecidableEq

/-- Event dispatcher: one engine step per bus callback. -/
def step (s : AutoTraderState) (e : Event) : AutoTraderState × List Command :=
  match e with
  | Event.orderBook instrument _ ask0 bid0 => orderBookStep s instrument ask0 bid0
  | Event.tradeTicks _ _ _ _ => (s, [])
  | Event.orderFilled id price volume => orderFilledStep s id price volume
  | Event.orderStatus id f rem fees => orderStatusStep s id f rem fees
  | Event.hedgeFilled id price volume => hedgeFilledStep s id price volume
  | Event.errorMsg id m => errorStep s id m
  | Event.disconnect => (s, [])

/-- State after a sequence of events. -/
def run (s : AutoTraderState) (es : List Event) : AutoTraderState :=
  es.foldl (fun t e => (step t e).1) s

/-! ### Constants and `setVolume` of the decaying-extremum variant
(second half of the file; LOT_SIZE there is 20) -/

def LOT_SIZE_B : Int := 20

/-- `DECAY_RATE = 0.0001` in the source. -/
def decayRate : ℚ := 1 / 10000

/-- `DECAY_BUY_LIMIT = 0.998` in the source. -/
def decayBuyLimit : ℚ := 998 / 1000

/-- `DECAY_SELL_LIMIT = 1.002` in the source. -/
def decaySellLimit : ℚ := 1002 / 1000

/-- The members of the decaying-extremum variant read by `setVolume`:
`maxRatio` and `minRatio` in the source (running extrema of the ratio) and
the shared position. -/
structure DecayState where
  maxSeen : FVal
  minSeen : FVal
  mPosition : Int
  deriving DecidableEq

/-- `AutoTrader::setVolume` (decaying-extremum variant): base volume 20,
doubled on a new running extremum, extrema decayed geometrically toward
neutral past the inner limits, and finally clamped by
`POSITION_LIMIT - abs(mPosition)` when the order could push the position
past the limit.  Returns the volume and the updated extrema. -/
def setVolume (d : DecayState) (r : FVal) (side : Side) : Int × DecayState :=
  let v1 : Int := if fgtF r d.maxSeen then LOT_SIZE_B * 2 else LOT_SIZE_B
  let maxSeen1 : FVal :=
    if fgtF r d.maxSeen then r
    else if FVal.ge d.maxSeen decaySellLimit then fsub d.maxSeen (fmulC d.maxSeen decayRate)
    else d.maxSeen
  let v2 : Int := if fltF r d.minSeen then LOT_SIZE_B * 2 else v1
  let minSeen1 : FVal :=
    if fltF r d.minSeen then r
    else if FVal.le d.minSeen decayBuyLimit then fadd d.minSeen (fmulC d.minSeen decayRate)
    else d.minSeen
  let v3 : Int :=
    if side = Side.sell ∧ d.mPosition - v2 ≤ -POSITION_LIMIT then POSITION_LIMIT - |d.mPosition|
    else if side = Side.buy ∧ POSITION_LIMIT ≤ d.mPosition + v2 then POSITION_LIMIT - |d.mPosition|
    else v2
  (v3, { maxSeen := maxSeen1, minSeen := minSeen1, mPosition := d.mPosition })

/-! ### Concrete states and traces used by individual claims -/

/-- Future-book snapshot fixing the future midpoint at 20000 cents. -/
def c1fut : Event := Event.orderBook Instrument.future 0 20000 20000

/-- ETF snapshot giving ratio 19800/20000 = 0.99 < BUY_RATIO. -/
def c1eb : Event := Event.orderBook Instrument.etf 0 19800 19800

/-- ETF snapshot giving ratio 1, which cancels a resting bid. -/
def c1ec : Event := Event.orderBook Instrument.etf 0 20000 20000

/-- Full fill of order `k` (volume 10 = the submitted lot size). -/
def c1fill (k : Nat) : Event := Event.orderFilled k 19800 10

/-- Zero-remaining status update confirming completion of order `k`. -/
def c1st (k : Nat) : Event := Event.orderStatus k 10 0 0

/-- A trace the exchange can legitimately produce (every order fills exactly
once with exactly its submitted volume): nine buy-fill-confirm rounds take
the position to 90; a tenth bid (id 19, volume clamped to 10) is then
cancelled by a ratio-1 snapshot, which frees the bid slot immediately, so an
eleventh bid (id 20, volume 10) is inserted; the cancel loses the race and
order 19 fills anyway, then order 20 fills: position 90 + 10 + 10 = 110. -/
def c1Trace : List Event :=
  [c1fut,
   c1eb, c1fill 1, c1st 1,
   c1eb, c1fill 3, c1st 3,
   c1eb, c1fill 5, c1st 5,
   c1eb, c1fill 7, c1st 7,
   c1eb, c1fill 9, c1st 9,
   c1eb, c1fill 11, c1st 11,
   c1eb, c1fill 13, c1st 13,
   c1eb, c1fill 15, c1st 15,
   c1eb, c1fill 17, c1st 17,
   c1eb, c1ec, c1eb,
   c1fill 19, c1fill 20]

/-- Two snapshots from the initial state: the second inserts a sell order
(id 1) because 20200/20000 = 1.01 > SELL_RATIO. -/
def c2Trace : List Event :=
  [Event.orderBook Instrument.future 1 20000 20000,
   Event.orderBook Instrument.etf 2 20200 20200]

/-- A state with a resting ask id 5 tracked in the ask membership set and
future midpoint 20000; used to instantiate the amended claim C2. -/
def c2WitnessState : AutoTraderState :=
  { midpointFuture := 20000
    midpointETF := 0
    mPosition := 0
    mBidId := 0
    mAskId := 5
    mBids := ∅
    mAsks := {5}
    mNextMessageId := 6
    ratios := []
    bandMA := FVal.fin 0
    bandVar := FVal.fin 0 }

/-- Two snapshots from the initial state: the second inserts a buy order
(id 1) because 19800/20000 = 0.99 < BUY_RATIO. -/
def c2BidTrace : List Event :=
  [Event.orderBook Instrument.future 1 20000 20000,
   Event.orderBook Instrument.etf 2 19800 19800]

/-- A state with a resting bid id 7 tracked in the bid membership set and
future midpoint 20000; used to instantiate the bid side of the amended
claim C2. -/
def c2BidWitnessState : AutoTraderState :=
  { midpointFuture := 20000
    midpointETF := 0
    mPosition := 0
    mBidId := 7
    mAskId := 0
    mBids := {7}
    mAsks := ∅
    mNextMessageId := 8
    ratios := []
    bandMA := FVal.fin 0
    bandVar := FVal.fin 0 }

/-- A flat state with future midpoint 20000 and no resting orders; used to
instantiate the amended claim C4. -/
def c4WitnessState : AutoTraderState :=
  { midpointFuture := 20000
    midpointETF := 0
    mPosition := 0
    mBidId := 0
    mAskId := 0
    mBids := ∅
    mAsks := ∅
    mNextMessageId := 1
    ratios := []
    bandMA := FVal.fin 0
    bandVar := FVal.fin 0 }

/-- A state tracking ask id 5 and bid id 7; used to instantiate C7. -/
def c7State : AutoTraderState :=
  { midpointFuture := 20000
    midpointETF := 19900
    mPosition := 40
    mBidId := 7
    mAskId := 5
    mBids := {7}
    mAsks := {5}
    mNextMessageId := 8
    ratios := []
    bandMA := FVal.fin 0
    bandVar := FVal.fin 0 }

/-- A state tracking ask id 5; used to instantiate C8. -/
def c8State : AutoTraderState :=
  { midpointFuture := 20000
    midpointETF := 19900
    mPosition := 0
    mBidId := 0
    mAskId := 5
    mBids := ∅
    mAsks := {5}
    mNextMessageId := 6
    ratios := []
    bandMA := FVal.fin 0
    bandVar := FVal.fin 0 }

/-- A state tracking bid id 3 and ask id 5; id 9 is untracked.  Used to
instantiate C9. -/
def c9State : AutoTraderState :=
  { midpointFuture := 20000
    midpointETF := 19900
    mPosition := -10
    mBidId := 3
    mAskId := 5
    mBids := {3}
    mAsks := {5}
    mNextMessageId := 6
    ratios := [FVal.fin 1]
    bandMA := FVal.fin 0
    bandVar := FVal.fin 0 }

/- Batteries marks the rational-number field operations `@[irreducible]`,
which blocks kernel evaluation of concrete engine runs; re-enable unfolding
for this file so that `decide` can evaluate the model. -/
attribute [local semireducible] Rat.mul Rat.add Rat.sub Rat.inv

set_option maxRecDepth 10000

/-! ### Helper lemmas about the individual phases -/

theorem setMidpoint_etf_flat (s : AutoTraderState) (m : Nat) (h0 : m ≠ 0)
    (ha : m % 100 = 0) :
    setMidpoint s Instrument.etf m m = { s with midpointETF := m } := by
  have h2 : (m + m) / 2 = m := by omega
  simp [setMidpoint, h0, h2, ha]

theorem ratioOf_fin (e f : Nat) (hf : f ≠ 0) :
    ratioOf e f = FVal.fin ((e : ℚ) / (f : ℚ)) := by
  simp [ratioOf, hf]

theorem cancelAskPhase_frame (s : AutoTraderState) (r : FVal) :
    (cancelAskPhase s r).1.midpointFuture = s.midpointFuture ∧
    (cancelAskPhase s r).1.midpointETF = s.midpointETF ∧
    (cancelAskPhase s r).1.mPosition = s.mPosition ∧
    (cancelAskPhase s r).1.mBidId = s.mBidId ∧
    (cancelAskPhase s r).1.mBids = s.mBids ∧
    (cancelAskPhase s r).1.mAsks = s.mAsks ∧
    (cancelAskPhase s r).1.mNextMessageId = s.mNextMessageId ∧
    (cancelAskPhase s r).1.ratios = s.ratios ∧
    (cancelAskPhase s r).1.bandMA = s.bandMA ∧
    (cancelAskPhase s r).1.bandVar = s.bandVar := by
  unfold cancelAskPhase
  split <;> exact ⟨rfl, rfl, rfl, rfl, rfl, rfl, rfl, rfl, rfl, rfl⟩

theorem cancelAskPhase_fire (s : AutoTraderState) (r : FVal)
    (h1 : s.mAskId ≠ 0) (h2 : FVal.le r 1 = true) :
    cancelAskPhase s r = ({ s with mAskId := 0 }, [Command.cancel s.mAskId]) := by
  simp [cancelAskPhase, h1, h2]

theorem cancelAskPhase_skip (s : AutoTraderState) (r : FVal) (h : s.mAskId = 0) :
    cancelAskPhase s r = (s, []) := by
  simp [cancelAskPhase, h]

theorem cancelBidPhase_skip (s : AutoTraderState) (r : FVal) (h : s.mBidId = 0) :
    cancelBidPhase s r = (s, []) := by
  simp [cancelBidPhase, h]

theorem cancelBidPhase_fire (s : AutoTraderState) (r : FVal)
    (h1 : s.mBidId ≠ 0) (h2 : FVal.ge r 1 = true) :
    cancelBidPhase s r = ({ s with mBidId := 0 }, [Command.cancel s.mBidId]) := by
  simp [cancelBidPhase, h1, h2]

theorem bollingerBands_small (s : AutoTraderState) (r : FVal)
    (h : s.ratios.length < WINDOW_SIZE) :
    bollingerBands s r = { s with ratios := s.ratios ++ [r] } := by
  simp [bollingerBands, h]

theorem bollingerBands_frame (s : AutoTraderState) (r : FVal) :
    (bollingerBands s r).mAskId = s.mAskId ∧
    (bollingerBands s r).mAsks = s.mAsks ∧
    (bollingerBands s r).mBidId = s.mBidId ∧
    (bollingerBands s r).mBids = s.mBids ∧
    (bollingerBands s r).mPosition = s.mPosition ∧
    (bollingerBands s r).mNextMessageId = s.mNextMessageId ∧
    (bollingerBands s r).midpointFuture = s.midpointFuture ∧
    (bollingerBands s r).midpointETF = s.midpointETF := by
  unfold bollingerBands
  split <;> exact ⟨rfl, rfl, rfl, rfl, rfl, rfl, rfl, rfl⟩

theorem buyPhase_fire (s : AutoTraderState) (r : FVal) (a : Nat)
    (h1 : s.mBidId = 0) (h2 : FVal.lt r buyThreshold = true)
    (h3 : s.mPosition < POSITION_LIMIT)
    (h4 : cmpLtLow r s.bandMA s.bandVar = false)
    (h5 : ¬ POSITION_LIMIT ≤ s.mPosition + LOT_SIZE) :
    buyPhase s r a =
      ({ s with mBidId := s.mNextMessageId,
                mNextMessageId := s.mNextMessageId + 1,
                mBids := insert s.mNextMessageId s.mBids },
       [Command.insert s.mNextMessageId Side.buy a LOT_SIZE Lifespan.goodForDay]) := by
  simp [buyPhase, h1, h2, h3, h4, h5]

theorem buyPhase_skip (s : AutoTraderState) (r : FVal) (a : Nat)
    (h : FVal.lt r buyThreshold = false) :
    buyPhase s r a = (s, []) := by
  simp [buyPhase, h]

theorem sellPhase_skip (s : AutoTraderState) (r : FVal) (b : Nat)
    (h : FVal.gt r sellThreshold = false) :
    sellPhase s r b = (s, []) := by
  simp [sellPhase, h]

theorem setMidpoint_etf_eq (s : AutoTraderState) (b a : Nat) (hz : ¬ (b = 0 ∨ a = 0)) :
    setMidpoint s Instrument.etf b a =
      { s with midpointETF :=
          if (a + b) / 2 % 100 ≠ 0 then (a + b) / 2 + 50 else (a + b) / 2 } := by
  simp [setMidpoint, hz]

theorem setMidpoint_future_eq (s : AutoTraderState) (b a : Nat) (hz : ¬ (b = 0 ∨ a = 0)) :
    setMidpoint s Instrument.future b a =
      { s with midpointFuture :=
          if (a + b) / 2 % 100 ≠ 0 then (a + b) / 2 + 50 else (a + b) / 2 } := by
  simp [setMidpoint, hz]

theorem orderStatusStep_zero_sets (s : AutoTraderState) (id f : Nat) (fees : Int) :
    (orderStatusStep s id f 0 fees).1.mAsks = s.mAsks.erase id ∧
    (orderStatusStep s id f 0 fees).1.mBids = s.mBids.erase id := by
  unfold orderStatusStep
  rw [if_pos rfl]
  by_cases h1 : id = s.mAskId <;> by_cases h2 : id = s.mBidId <;> simp_all

/-! ### Claims -/

/-- Claim C1: the spec asserts `|position| ≤ PositionLimit (100)` after every
event handler, for every event sequence from the initial state.  The code
violates this: `c1Trace` is a fill/cancel race the exchange can produce
(every order fills exactly once with exactly its submitted volume), yet the
position reaches 110, because a cancel frees the bid slot immediately while
the cancelled order can still fill. -/
theorem C1_position_limit_breach :
    (run initState c1Trace).mPosition = 110 ∧
    100 < |(run initState c1Trace).mPosition| := by decide

/-- Claim C3 (counterexample): the spec asserts that an ETF-snapshot
evaluation with future midpoint zero produces no insert and no cancel.  From
the initial state (future midpoint 0), an ETF snapshot at 9900/9900 divides
by zero, the IEEE ratio is `+inf`, `inf > SELL_RATIO` holds, and a SELL
insert is issued. -/
theorem C3_counterexample_inf_sell :
    initState.midpointFuture = 0 ∧
    (orderBookStep initState Instrument.etf 9900 9900).2 =
      [Command.insert 1 Side.sell 9900 30 Lifespan.goodForDay] := by decide

/-- Claim C3 (amended): the evaluation produces no insert and no cancel only
when both the future midpoint and the (post-snapshot) ETF midpoint are zero,
in which case the ratio is NaN and every comparison fails.  (With a zero
future midpoint but non-zero ETF midpoint the ratio is `+inf` and a resting
bid is cancelled and/or a SELL is inserted, see the counterexample.) -/
theorem C3_no_signal_both_midpoints_zero (s : AutoTraderState) (a b : Nat)
    (hf : s.midpointFuture = 0) (he : s.midpointETF = 0) (hz : b = 0 ∨ a = 0) :
    (orderBookStep s Instrument.etf a b).2 = [] := by
  have hmid : setMidpoint s Instrument.etf b a = s := by
    simp [setMidpoint, hz]
  simp [orderBookStep, hmid, ratioOf, hf, he, cancelAskPhase, cancelBidPhase,
    buyPhase, sellPhase, FVal.le, FVal.ge, FVal.lt, FVal.gt]

/-- Witness for C3 (amended) at the initial state with an empty book side. -/
theorem C3_amended_witness :
    (orderBookStep initState Instrument.etf 0 0).2 = [] :=
  C3_no_signal_both_midpoints_zero initState 0 0 rfl rfl (Or.inl rfl)

/-- Claim C6 (counterexample): the spec asserts the stored midpoint is
always a multiple of TICK_SIZE_IN_CENTS (100); but for bid = ask = 101 the
raw mid 101 is not aligned, 50 is added, and 151 is stored. -/
theorem C6_counterexample_not_tick_multiple :
    (setMidpoint initState Instrument.etf 101 101).midpointETF = 151 ∧
    ¬ (setMidpoint initState Instrument.etf 101 101).midpointETF % 100 = 0 := by
  decide

/-- Claim C6 (amended): `setMidpoint` computes `mid = (bid+ask)/2` and adds
half a tick when the raw value is not tick-aligned; the stored value is a
multiple of 100 whenever both input prices are themselves tick-aligned
(always the case for exchange prices), though not for arbitrary inputs. -/
theorem C6_midpoint_aligned_inputs (s : AutoTraderState) (b a : Nat)
    (hb : b ≠ 0) (ha : a ≠ 0) (hbt : b % 100 = 0) (hat : a % 100 = 0) :
    (setMidpoint s Instrument.etf b a).midpointETF % 100 = 0 ∧
    (setMidpoint s Instrument.future b a).midpointFuture % 100 = 0 := by
  have hz : ¬ (b = 0 ∨ a = 0) := by simp [hb, ha]
  refine ⟨?_, ?_⟩
  · rw [setMidpoint_etf_eq s b a hz]
    show (if (a + b) / 2 % 100 ≠ 0 then (a + b) / 2 + 50 else (a + b) / 2) % 100 = 0
    split <;> omega
  · rw [setMidpoint_future_eq s b a hz]
    show (if (a + b) / 2 % 100 ≠ 0 then (a + b) / 2 + 50 else (a + b) / 2) % 100 = 0
    split <;> omega

/-- Witness for C6 (amended) at bid 19900, ask 20000 (mid 19950 → 20000). -/
theorem C6_amended_witness :
    (setMidpoint initState Instrument.etf 19900 20000).midpointETF % 100 = 0 ∧
    (setMidpoint initState Instrument.future 19900 20000).midpointFuture % 100 = 0 :=
  C6_midpoint_aligned_inputs initState 19900 20000 (by decide) (by decide)
    (by decide) (by decide)

/-- Claim C7: a fill for an id in the ask membership set decreases the
position by the filled volume and issues a BUY hedge at the tick-aligned
maximum ask price; a fill for an id in the bid membership set (the sets are
disjoint in reachable states; the handler checks the ask set first)
increases the position and issues a SELL hedge at the minimum bid price;
neither case touches the slots or the membership sets. -/
theorem C7_fill_position_and_hedge (s : AutoTraderState) (id price volume : Nat) :
    (id ∈ s.mAsks →
      orderFilledStep s id price volume =
        ({ s with mPosition := s.mPosition - (volume : Int),
                  mNextMessageId := s.mNextMessageId + 1 },
         [Command.hedge s.mNextMessageId Side.buy
            (MAXIMUM_ASK / TICK_SIZE_IN_CENTS * TICK_SIZE_IN_CENTS) volume])) ∧
    (MAXIMUM_ASK / TICK_SIZE_IN_CENTS * TICK_SIZE_IN_CENTS) % TICK_SIZE_IN_CENTS = 0 ∧
    (id ∉ s.mAsks → id ∈ s.mBids →
      orderFilledStep s id price volume =
        ({ s with mPosition := s.mPosition + (volume : Int),
                  mNextMessageId := s.mNextMessageId + 1 },
         [Command.hedge s.mNextMessageId Side.sell MINIMUM_BID volume])) := by
  refine ⟨fun h => ?_, by decide, fun h1 h2 => ?_⟩
  · simp [orderFilledStep, h]
  · simp [orderFilledStep, h1, h2]

/-- Witness for C7: ask id 5 fills for 20 lots in `c7State`. -/
theorem C7_witness :
    orderFilledStep c7State 5 19900 20 =
      ({ c7State with mPosition := c7State.mPosition - (20 : Int),
                      mNextMessageId := c7State.mNextMessageId + 1 },
       [Command.hedge c7State.mNextMessageId Side.buy
          (MAXIMUM_ASK / TICK_SIZE_IN_CENTS * TICK_SIZE_IN_CENTS) 20]) :=
  (C7_fill_position_and_hedge c7State 5 19900 20).1 (by decide)

/-- Claim C8: an error callback with a non-zero id has exactly the effect of
a zero-remaining status update for that id (clearing the slot and erasing
the membership entries), and an error callback with id 0 changes nothing. -/
theorem C8_error_equals_zero_status (s : AutoTraderState) (id : Nat)
    (msg : String) (h : id ≠ 0) :
    errorStep s id msg = orderStatusStep s id 0 0 0 ∧
    (errorStep s id msg).1.mAsks = s.mAsks.erase id ∧
    (errorStep s id msg).1.mBids = s.mBids.erase id ∧
    errorStep s 0 msg = (s, []) := by
  have he : errorStep s id msg = orderStatusStep s id 0 0 0 := by
    simp [errorStep, h]
  refine ⟨he, ?_, ?_, by simp [errorStep]⟩
  · rw [he]; exact (orderStatusStep_zero_sets s id 0 0).1
  · rw [he]; exact (orderStatusStep_zero_sets s id 0 0).2

/-- Witness for C8: error for tracked ask id 5 in `c8State`. -/
theorem C8_witness :
    errorStep c8State 5 "rejected" = orderStatusStep c8State 5 0 0 0 ∧
    (errorStep c8State 5 "rejected").1.mAsks = c8State.mAsks.erase 5 ∧
    (errorStep c8State 5 "rejected").1.mBids = c8State.mBids.erase 5 ∧
    errorStep c8State 0 "rejected" = (c8State, []) :=
  C8_error_equals_zero_status c8State 5 "rejected" (by decide)

/-- Claim C9: a zero-remaining status update for an id held in neither slot
nor membership set leaves the entire engine state unchanged and issues no
command. -/
theorem C9_status_untracked_noop (s : AutoTraderState) (id f : Nat) (fees : Int)
    (h1 : id ≠ s.mAskId) (h2 : id ≠ s.mBidId)
    (h3 : id ∉ s.mAsks) (h4 : id ∉ s.mBids) :
    orderStatusStep s id f 0 fees = (s, []) := by
  simp [orderStatusStep, h1, h2, Finset.erase_eq_of_not_mem h3,
    Finset.erase_eq_of_not_mem h4]

/-- Witness for C9: untracked id 9 in `c9State`. -/
theorem C9_witness : orderStatusStep c9State 9 4 0 (-2) = (c9State, []) :=
  C9_status_untracked_noop c9State 9 4 (-2) (by decide) (by decide)
    (by decide) (by decide)

/-- Claim C10: a hedge-filled notification changes nothing: the handler only
logs, so the tracked position never reflects hedge executions. -/
theorem C10_hedge_fill_noop (s : AutoTraderState) (id price volume : Nat) :
    step s (Event.hedgeFilled id price volume) = (s, []) := rfl

/-- Claim C2 (counterexample): the spec asserts the order slot is never
cleared at cancel time.  Ask side: from the initial state, two snapshots
insert a sell order (id 1); a third snapshot with ratio 1 emits the cancel
for id 1 and zeroes `mAskId` in the same evaluation, before any status
update — only the membership-set entry survives.  Bid side: symmetrically,
two snapshots insert a buy order (id 1) and a ratio-1 snapshot emits the
cancel and zeroes `mBidId` immediately, with the `mBids` entry surviving. -/
theorem C2_counterexample_slot_cleared_at_cancel :
    ((run initState c2Trace).mAskId = 1 ∧
     1 ∈ (run initState c2Trace).mAsks ∧
     (orderBookStep (run initState c2Trace) Instrument.etf 20000 20000).1.mAskId = 0 ∧
     Command.cancel 1 ∈
       (orderBookStep (run initState c2Trace) Instrument.etf 20000 20000).2) ∧
    ((run initState c2BidTrace).mBidId = 1 ∧
     1 ∈ (run initState c2BidTrace).mBids ∧
     (orderBookStep (run initState c2BidTrace) Instrument.etf 20000 20000).1.mBidId = 0 ∧
     Command.cancel 1 ∈
       (orderBookStep (run initState c2BidTrace) Instrument.etf 20000 20000).2) := by
  decide

/-- Claim C2 (amended): when a resting order is cancelled — an ask because
ratio ≤ 1, or a bid because ratio ≥ 1 — the cancel command is emitted and
the slot id (`mAskId` resp. `mBidId`) is zeroed immediately in the same
evaluation; only the membership-set entry (`mAsks` resp. `mBids`) remains,
and it is removed by a subsequent zero-remaining status update for that id.
(Framing hypotheses per side: the opposite slot is empty and the ratio is
inside the strict insert thresholds, so no insert interferes.) -/
theorem C2_cancel_zeroes_slot_membership_persists (s : AutoTraderState) (m : Nat)
    (hm : m ≠ 0) (halign : m % 100 = 0) (hf0 : s.midpointFuture ≠ 0) :
    (s.mAskId ≠ 0 → m ≤ s.midpointFuture → s.mBidId = 0 →
      ¬ ((m : ℚ) / (s.midpointFuture : ℚ) < buyThreshold) →
      Command.cancel s.mAskId ∈ (orderBookStep s Instrument.etf m m).2 ∧
      (orderBookStep s Instrument.etf m m).1.mAskId = 0 ∧
      (orderBookStep s Instrument.etf m m).1.mAsks = s.mAsks ∧
      (orderStatusStep (orderBookStep s Instrument.etf m m).1 s.mAskId 0 0 0).1.mAsks =
        s.mAsks.erase s.mAskId) ∧
    (s.mBidId ≠ 0 → s.midpointFuture ≤ m → s.mAskId = 0 →
      ¬ (sellThreshold < (m : ℚ) / (s.midpointFuture : ℚ)) →
      Command.cancel s.mBidId ∈ (orderBookStep s Instrument.etf m m).2 ∧
      (orderBookStep s Instrument.etf m m).1.mBidId = 0 ∧
      (orderBookStep s Instrument.etf m m).1.mBids = s.mBids ∧
      (orderStatusStep (orderBookStep s Instrument.etf m m).1 s.mBidId 0 0 0).1.mBids =
        s.mBids.erase s.mBidId) := by
  have hfq : (0 : ℚ) < (s.midpointFuture : ℚ) := by
    exact_mod_cast Nat.pos_of_ne_zero hf0
  refine ⟨fun hask hle hbid hnb => ?_, fun hbid hge hask0 hns => ?_⟩
  · have hq : ((m : ℚ) / (s.midpointFuture : ℚ)) ≤ 1 := by
      rw [div_le_one hfq]; exact_mod_cast hle
    have hle1 : FVal.le (FVal.fin ((m : ℚ) / (s.midpointFuture : ℚ))) 1 = true := by
      simp [FVal.le, hq]
    have hltb : FVal.lt (FVal.fin ((m : ℚ) / (s.midpointFuture : ℚ))) buyThreshold = false := by
      simp [FVal.lt, hnb]
    have hgt : FVal.gt (FVal.fin ((m : ℚ) / (s.midpointFuture : ℚ))) sellThreshold = false := by
      have : ¬ (sellThreshold < (m : ℚ) / (s.midpointFuture : ℚ)) := by
        simp only [sellThreshold]
        intro hcon
        have : (1 : ℚ) < (m : ℚ) / (s.midpointFuture : ℚ) := lt_trans (by norm_num) hcon
        linarith
      simp [FVal.gt, this]
    have e2 : cancelAskPhase { s with midpointETF := m }
          (FVal.fin ((m : ℚ) / (s.midpointFuture : ℚ))) =
        ({ s with midpointETF := m, mAskId := 0 }, [Command.cancel s.mAskId]) :=
      cancelAskPhase_fire _ _ hask hle1
    have e3 : cancelBidPhase { s with midpointETF := m, mAskId := 0 }
          (FVal.fin ((m : ℚ) / (s.midpointFuture : ℚ))) =
        ({ s with midpointETF := m, mAskId := 0 }, []) :=
      cancelBidPhase_skip _ _ hbid
    have e4 : buyPhase
          (bollingerBands { s with midpointETF := m, mAskId := 0 }
            (FVal.fin ((m : ℚ) / (s.midpointFuture : ℚ))))
          (FVal.fin ((m : ℚ) / (s.midpointFuture : ℚ))) m =
        (bollingerBands { s with midpointETF := m, mAskId := 0 }
            (FVal.fin ((m : ℚ) / (s.midpointFuture : ℚ))), []) :=
      buyPhase_skip _ _ _ hltb
    have e5 : sellPhase
          (bollingerBands { s with midpointETF := m, mAskId := 0 }
            (FVal.fin ((m : ℚ) / (s.midpointFuture : ℚ))))
          (FVal.fin ((m : ℚ) / (s.midpointFuture : ℚ))) m =
        (bollingerBands { s with midpointETF := m, mAskId := 0 }
            (FVal.fin ((m : ℚ) / (s.midpointFuture : ℚ))), []) :=
      sellPhase_skip _ _ _ hgt
    have hstep : orderBookStep s Instrument.etf m m =
        (bollingerBands { s with midpointETF := m, mAskId := 0 }
           (FVal.fin ((m : ℚ) / (s.midpointFuture : ℚ))),
         [Command.cancel s.mAskId]) := by
      simp only [orderBookStep, setMidpoint_etf_flat s m hm halign,
        ratioOf_fin m s.midpointFuture hf0, e2, e3, e4, e5, List.append_nil,
        List.nil_append]
    obtain ⟨hbf1, hbf2, hbf3, hbf4, hbf5, hbf6, hbf7, hbf8⟩ :=
      bollingerBands_frame ({ s with midpointETF := m, mAskId := 0 })
        (FVal.fin ((m : ℚ) / (s.midpointFuture : ℚ)))
    refine ⟨?_, ?_, ?_, ?_⟩
    · rw [hstep]; exact List.mem_singleton.mpr rfl
    · show (orderBookStep s Instrument.etf m m).1.mAskId = 0
      rw [hstep]; exact hbf1
    · show (orderBookStep s Instrument.etf m m).1.mAsks = s.mAsks
      rw [hstep]; exact hbf2
    · rw [hstep]
      rw [(orderStatusStep_zero_sets _ s.mAskId 0 0).1]
      rw [hbf2]
  · have hq : (1 : ℚ) ≤ ((m : ℚ) / (s.midpointFuture : ℚ)) := by
      rw [one_le_div hfq]; exact_mod_cast hge
    have hge1 : FVal.ge (FVal.fin ((m : ℚ) / (s.midpointFuture : ℚ))) 1 = true := by
      simp [FVal.ge, hq]
    have hltb : FVal.lt (FVal.fin ((m : ℚ) / (s.midpointFuture : ℚ))) buyThreshold = false := by
      have : ¬ ((m : ℚ) / (s.midpointFuture : ℚ) < buyThreshold) := by
        simp only [buyThreshold]
        intro hcon
        linarith
      simp [FVal.lt, this]
    have hgt : FVal.gt (FVal.fin ((m : ℚ) / (s.midpointFuture : ℚ))) sellThreshold = false := by
      simp [FVal.gt, hns]
    have e2 : cancelAskPhase { s with midpointETF := m }
          (FVal.fin ((m : ℚ) / (s.midpointFuture : ℚ))) =
        ({ s with midpointETF := m }, []) :=
      cancelAskPhase_skip _ _ hask0
    have e3 : cancelBidPhase { s with midpointETF := m }
          (FVal.fin ((m : ℚ) / (s.midpointFuture : ℚ))) =
        ({ s with midpointETF := m, mBidId := 0 }, [Command.cancel s.mBidId]) :=
      cancelBidPhase_fire _ _ hbid hge1
    have e4 : buyPhase
          (bollingerBands { s with midpointETF := m, mBidId := 0 }
            (FVal.fin ((m : ℚ) / (s.midpointFuture : ℚ))))
          (FVal.fin ((m : ℚ) / (s.midpointFuture : ℚ))) m =
        (bollingerBands { s with midpointETF := m, mBidId := 0 }
            (FVal.fin ((m : ℚ) / (s.midpointFuture : ℚ))), []) :=
      buyPhase_skip _ _ _ hltb
    have e5 : sellPhase
          (bollingerBands { s with midpointETF := m, mBidId := 0 }
            (FVal.fin ((m : ℚ) / (s.midpointFuture : ℚ))))
          (FVal.fin ((m : ℚ) / (s.midpointFuture : ℚ))) m =
        (bollingerBands { s with midpointETF := m, mBidId := 0 }
            (FVal.fin ((m : ℚ) / (s.midpointFuture : ℚ))), []) :=
      sellPhase_skip _ _ _ hgt
    have hstep : orderBookStep s Instrument.etf m m =
        (bollingerBands { s with midpointETF := m, mBidId := 0 }
           (FVal.fin ((m : ℚ) / (s.midpointFuture : ℚ))),
         [Command.cancel s.mBidId]) := by
      simp only [orderBookStep, setMidpoint_etf_flat s m hm halign,
        ratioOf_fin m s.midpointFuture hf0, e2, e3, e4, e5, List.append_nil,
        List.nil_append]
    obtain ⟨hbf1, hbf2, hbf3, hbf4, hbf5, hbf6, hbf7, hbf8⟩ :=
      bollingerBands_frame ({ s with midpointETF := m, mBidId := 0 })
        (FVal.fin ((m : ℚ) / (s.midpointFuture : ℚ)))
    refine ⟨?_, ?_, ?_, ?_⟩
    · rw [hstep]; exact List.mem_singleton.mpr rfl
    · show (orderBookStep s Instrument.etf m m).1.mBidId = 0
      rw [hstep]; exact hbf3
    · show (orderBookStep s Instrument.etf m m).1.mBids = s.mBids
      rw [hstep]; exact hbf4
    · rw [hstep]
      rw [(orderStatusStep_zero_sets _ s.mBidId 0 0).2]
      rw [hbf4]

/-- Witness for C2 (amended): resting ask id 5 in `c2WitnessState` and
resting bid id 7 in `c2BidWitnessState`, each cancelled by a ratio-1
snapshot. -/
theorem C2_amended_witness :
    (Command.cancel c2WitnessState.mAskId ∈
       (orderBookStep c2WitnessState Instrument.etf 20000 20000).2 ∧
     (orderBookStep c2WitnessState Instrument.etf 20000 20000).1.mAskId = 0 ∧
     (orderBookStep c2WitnessState Instrument.etf 20000 20000).1.mAsks =
       c2WitnessState.mAsks ∧
     (orderStatusStep (orderBookStep c2WitnessState Instrument.etf 20000 20000).1
         c2WitnessState.mAskId 0 0 0).1.mAsks =
       c2WitnessState.mAsks.erase c2WitnessState.mAskId) ∧
    (Command.cancel c2BidWitnessState.mBidId ∈
       (orderBookStep c2BidWitnessState Instrument.etf 20000 20000).2 ∧
     (orderBookStep c2BidWitnessState Instrument.etf 20000 20000).1.mBidId = 0 ∧
     (orderBookStep c2BidWitnessState Instrument.etf 20000 20000).1.mBids =
       c2BidWitnessState.mBids ∧
     (orderStatusStep (orderBookStep c2BidWitnessState Instrument.etf 20000 20000).1
         c2BidWitnessState.mBidId 0 0 0).1.mBids =
       c2BidWitnessState.mBids.erase c2BidWitnessState.mBidId) :=
  ⟨(C2_cancel_zeroes_slot_membership_persists c2WitnessState 20000 (by decide)
      (by decide) (by decide)).1 (by decide) (by decide) (by decide) (by decide),
   (C2_cancel_zeroes_slot_membership_persists c2BidWitnessState 20000 (by decide)
      (by decide) (by decide)).2 (by decide) (by decide) (by decide) (by decide)⟩

/-- Claim C4 (counterexample): the spec asserts that ETF midpoint 199 and
future midpoint 200 (ratio exactly 0.995 = BUY_RATIO) trigger a BUY with
headroom and no resting bid.  From the initial state a future snapshot at
200/200 and an ETF snapshot at 149/149 (midpoint 149 → 199) realise exactly
that scenario, and the evaluation issues no command at all: the comparison
`ratio < BUY_RATIO` is strict and 0.995 < 0.995 fails. -/
theorem C4_counterexample_equal_threshold_no_buy :
    (run initState [Event.orderBook Instrument.future 1 200 200]).midpointFuture = 200 ∧
    (orderBookStep (run initState [Event.orderBook Instrument.future 1 200 200])
        Instrument.etf 149 149).1.midpointETF = 199 ∧
    (orderBookStep (run initState [Event.orderBook Instrument.future 1 200 200])
        Instrument.etf 149 149).2 = [] := by decide

/-- Claim C4 (amended): a BUY at the fixed lot size fires only for a ratio
strictly below BUY_RATIO: with no resting orders, Bollinger statistics not
signalling (window not yet full and ratio not below the stored low band),
and position headroom, an ETF snapshot with `ask0 = bid0 = a` and
`a / midpointFuture < 0.995` inserts exactly one BUY order of volume
LOT_SIZE at price `a`, recording the new id in the bid slot. -/
theorem C4_buy_below_threshold (s : AutoTraderState) (a : Nat)
    (hbid : s.mBidId = 0) (hask0 : s.mAskId = 0) (ha : a ≠ 0) (halign : a % 100 = 0)
    (hf0 : s.midpointFuture ≠ 0)
    (hratio : (a : ℚ) / (s.midpointFuture : ℚ) < buyThreshold)
    (hband : cmpLtLow (FVal.fin ((a : ℚ) / (s.midpointFuture : ℚ)))
      s.bandMA s.bandVar = false)
    (hwin : s.ratios.length < WINDOW_SIZE)
    (hpos : s.mPosition + LOT_SIZE < POSITION_LIMIT) :
    (orderBookStep s Instrument.etf a a).2 =
      [Command.insert s.mNextMessageId Side.buy a LOT_SIZE Lifespan.goodForDay] ∧
    (orderBookStep s Instrument.etf a a).1.mBidId = s.mNextMessageId := by
  have hlt : FVal.lt (FVal.fin ((a : ℚ) / (s.midpointFuture : ℚ))) buyThreshold = true := by
    simp [FVal.lt, hratio]
  have hgt : FVal.gt (FVal.fin ((a : ℚ) / (s.midpointFuture : ℚ))) sellThreshold = false := by
    have hq : ¬ (sellThreshold < (a : ℚ) / (s.midpointFuture : ℚ)) := by
      intro hcon
      have h1 : buyThreshold < sellThreshold := by
        simp only [buyThreshold, sellThreshold]; norm_num
      linarith
    simp [FVal.gt, hq]
  have hp3 : s.mPosition < POSITION_LIMIT := by
    simp only [LOT_SIZE, POSITION_LIMIT] at hpos ⊢; omega
  have hp5 : ¬ POSITION_LIMIT ≤ s.mPosition + LOT_SIZE := by omega
  have e2 : cancelAskPhase { s with midpointETF := a }
        (FVal.fin ((a : ℚ) / (s.midpointFuture : ℚ))) =
      ({ s with midpointETF := a }, []) :=
    cancelAskPhase_skip _ _ hask0
  have e3 : cancelBidPhase { s with midpointETF := a }
        (FVal.fin ((a : ℚ) / (s.midpointFuture : ℚ))) =
      ({ s with midpointETF := a }, []) :=
    cancelBidPhase_skip _ _ hbid
  have e4 : bollingerBands { s with midpointETF := a }
        (FVal.fin ((a : ℚ) / (s.midpointFuture : ℚ))) =
      { s with midpointETF := a,
               ratios := s.ratios ++ [FVal.fin ((a : ℚ) / (s.midpointFuture : ℚ))] } :=
    bollingerBands_small _ _ hwin
  have e5 : buyPhase
        { s with midpointETF := a,
                 ratios := s.ratios ++ [FVal.fin ((a : ℚ) / (s.midpointFuture : ℚ))] }
        (FVal.fin ((a : ℚ) / (s.midpointFuture : ℚ))) a =
      ({ s with midpointETF := a,
                ratios := s.ratios ++ [FVal.fin ((a : ℚ) / (s.midpointFuture : ℚ))],
                mBidId := s.mNextMessageId,
                mNextMessageId := s.mNextMessageId + 1,
                mBids := insert s.mNextMessageId s.mBids },
       [Command.insert s.mNextMessageId Side.buy a LOT_SIZE Lifespan.goodForDay]) :=
    buyPhase_fire _ _ _ hbid hlt hp3 hband hp5
  have e6 : sellPhase
        ({ s with midpointETF := a,
                  ratios := s.ratios ++ [FVal.fin ((a : ℚ) / (s.midpointFuture : ℚ))],
                  mBidId := s.mNextMessageId,
                  mNextMessageId := s.mNextMessageId + 1,
                  mBids := insert s.mNextMessageId s.mBids } : AutoTraderState)
        (FVal.fin ((a : ℚ) / (s.midpointFuture : ℚ))) a =
      ({ s with midpointETF := a,
                ratios := s.ratios ++ [FVal.fin ((a : ℚ) / (s.midpointFuture : ℚ))],
                mBidId := s.mNextMessageId,
                mNextMessageId := s.mNextMessageId + 1,
                mBids := insert s.mNextMessageId s.mBids }, []) :=
    sellPhase_skip _ _ _ hgt
  have hstep : orderBookStep s Instrument.etf a a =
      ({ s with midpointETF := a,
                ratios := s.ratios ++ [FVal.fin ((a : ℚ) / (s.midpointFuture : ℚ))],
                mBidId := s.mNextMessageId,
                mNextMessageId := s.mNextMessageId + 1,
                mBids := insert s.mNextMessageId s.mBids },
       [Command.insert s.mNextMessageId Side.buy a LOT_SIZE Lifespan.goodForDay]) := by
    simp only [orderBookStep, setMidpoint_etf_flat s a ha halign,
      ratioOf_fin a s.midpointFuture hf0, e2, e3, e4, e5, e6, List.append_nil,
      List.nil_append]
  rw [hstep]
  exact ⟨rfl, rfl⟩

/-- Witness for C4 (amended): flat state, future midpoint 20000, ETF
snapshot at 19800 (ratio 0.99 < BUY_RATIO) inserts BUY id 1 of volume 10. -/
theorem C4_amended_witness :
    (orderBookStep c4WitnessState Instrument.etf 19800 19800).2 =
      [Command.insert 1 Side.buy 19800 LOT_SIZE Lifespan.goodForDay] ∧
    (orderBookStep c4WitnessState Instrument.etf 19800 19800).1.mBidId = 1 :=
  C4_buy_below_threshold c4WitnessState 19800 (by decide) (by decide) (by decide)
    (by decide) (by decide) (by decide) (by decide) (by decide) (by decide)

/-- Claim C5: `setVolume` clamps every insert volume so that
`|position ± volume| ≤ POSITION_LIMIT` (given the position is within the
limit, which the handlers' guards maintain), and in particular a BUY
triggered at position 90 with lot size 20 submits volume 10, not 20,
whatever the ratio and the stored extrema are. -/
theorem C5_insert_volume_clamped :
    (∀ (d : DecayState) (r : FVal) (side : Side),
        -POSITION_LIMIT ≤ d.mPosition → d.mPosition ≤ POSITION_LIMIT →
        (side = Side.buy → |d.mPosition + (setVolume d r side).1| ≤ POSITION_LIMIT) ∧
        (side = Side.sell → |d.mPosition - (setVolume d r side).1| ≤ POSITION_LIMIT)) ∧
    (∀ (mx mn r : FVal), (setVolume ⟨mx, mn, 90⟩ r Side.buy).1 = 10) := by
  constructor
  · intro d r side h1 h2
    simp only [POSITION_LIMIT] at h1 h2 ⊢
    constructor
    · rintro rfl
      simp only [setVolume, LOT_SIZE_B, POSITION_LIMIT]
      split_ifs <;>
        rcases abs_cases d.mPosition with ⟨he, h0⟩ | ⟨he, h0⟩ <;>
          simp only [he, abs_le, true_and, false_and] at * <;> omega
    · rintro rfl
      simp only [setVolume, LOT_SIZE_B, POSITION_LIMIT]
      split_ifs <;>
        rcases abs_cases d.mPosition with ⟨he, h0⟩ | ⟨he, h0⟩ <;>
          simp only [he, abs_le, true_and, false_and] at * <;> omega
  · intro mx mn r
    simp only [setVolume, LOT_SIZE_B, POSITION_LIMIT]
    split_ifs <;> simp only [true_and, false_and] at * <;> first | decide | omega

/-- Witness for C5: position 85, doubled volume 40 clamped to 15 keeps the
position at the limit; and the pinned instance at position 90 yields 10. -/
theorem C5_witness :
    |(85 : Int) + (setVolume ⟨FVal.fin 1, FVal.fin 1, 85⟩ (FVal.fin (101/100)) Side.buy).1| ≤
      POSITION_LIMIT ∧
    (setVolume ⟨FVal.fin 1, FVal.fin 1, 90⟩ (FVal.fin 1) Side.buy).1 = 10 :=
  ⟨(C5_insert_volume_clamped.1 ⟨FVal.fin 1, FVal.fin 1, 85⟩ (FVal.fin (101/100))
      Side.buy (by decide) (by decide)).1 rfl,
   C5_insert_volume_clamped.2 (FVal.fin 1) (FVal.fin 1) (FVal.fin 1)⟩
